import Mathlib

/-!
Verification of the skillswap server routes (src/server/routes.ts): the
content-ingestion pipeline behind POST /api/content/upload, the WebSocket
broadcast handler, and the authentication middleware chain, shallowly
embedded as executable Lean definitions.
-/

namespace SkillSwap

/-! ## Content data model (routes.ts lines 408-479) -/

/-- Processing status of a content record: "processing", "complete", "failed". -/
inductive ContentStatus
  | processing
  | complete
  | failed
deriving DecidableEq, Repr

/-- A terminal status is "complete" or "failed". -/
def ContentStatus.isTerminal : ContentStatus → Bool
  | .processing => false
  | .complete => true
  | .failed => true

/-- File type stored on a content record: "pdf" or "video" (routes.ts line 438). -/
inductive FileType
  | pdf
  | video
deriving DecidableEq, Repr

/-- The multer-populated req.file object as the handler reads it. -/
structure UploadFile where
  originalname : String
  mimetype : String
  path : String
  size : Nat
deriving DecidableEq, Repr

/-- A persisted content record (fields as passed to storage.createContent,
routes.ts lines 440-448, plus the id the store assigns). -/
structure ContentRecord where
  id : Nat
  userId : Nat
  filename : String
  fileType : FileType
  filePath : String
  fileSize : Nat
  status : ContentStatus
  summary : Option String
deriving DecidableEq, Repr

/-- The record fields supplied to createContent (everything but the id). -/
structure NewContent where
  userId : Nat
  filename : String
  fileType : FileType
  filePath : String
  fileSize : Nat
  status : ContentStatus
  summary : Option String
deriving DecidableEq, Repr

/-- A partial update object as passed to storage.updateContent: a field that
is none is absent from the update and left unchanged. -/
structure ContentUpdate where
  summary : Option String := none
  status : Option ContentStatus := none
deriving DecidableEq, Repr

/-- Modelled from the spec: the Content Record Store Adapter (./storage is not
under src/) — "a persistent Record Store exposing create/read/update keyed by
numeric id"; records live keyed by id, ids are assigned by the store. -/
structure ContentStore where
  records : List (Nat × ContentRecord)
  nextId : Nat
deriving DecidableEq, Repr

/-- Modelled from the spec: storage.createContent — creates a record under a
fresh numeric id and returns the created record to the caller. -/
def createContent (st : ContentStore) (c : NewContent) : ContentRecord × ContentStore :=
  let r : ContentRecord :=
    { id := st.nextId, userId := c.userId, filename := c.filename,
      fileType := c.fileType, filePath := c.filePath, fileSize := c.fileSize,
      status := c.status, summary := c.summary }
  (r, { records := (st.nextId, r) :: st.records, nextId := st.nextId + 1 })

/-- Apply a partial update to a record: supplied fields overwrite, absent
fields are kept (last-writer-wins per field, per the spec). -/
def applyContentUpdate (r : ContentRecord) (u : ContentUpdate) : ContentRecord :=
  { r with
    summary := match u.summary with | some s => some s | none => r.summary
    status := match u.status with | some s => s | none => r.status }

/-- Modelled from the spec: storage.updateContent — updates the record with
the given id by the supplied fields; other records are untouched. -/
def updateContent (st : ContentStore) (cid : Nat) (u : ContentUpdate) : ContentStore :=
  { st with
    records := st.records.map fun p => if p.1 = cid then (p.1, applyContentUpdate p.2 u) else p }

/-- Look up a record by id in the store. -/
def getContent (st : ContentStore) (cid : Nat) : Option ContentRecord :=
  (st.records.find? fun p => p.1 = cid).map (·.2)

/-! ## Upload validation (multer configuration, routes.ts lines 419-430) -/

/-- The MIME allow-list of the multer fileFilter (routes.ts line 423). -/
def allowedMimes : List String := ["application/pdf", "video/mp4"]

/-- The multer fileSize limit: 100 MB (routes.ts line 421). -/
def uploadSizeLimit : Nat := 100 * 1024 * 1024

/-- The multer middleware accepts a file iff its MIME type is on the
allow-list (fileFilter) and its size does not exceed the limit. -/
def multerAccepts (f : UploadFile) : Bool :=
  allowedMimes.contains f.mimetype && f.size ≤ uploadSizeLimit

/-- Modelled from the spec: the Express error-handling middleware that turns a
multer rejection into an HTTP response is not under src/; the spec says the
endpoint "rejects any other MIME type with a client error before creating a
record", so a rejection surfaces with a 4xx status code. -/
def uploadRejectionStatus : Nat := 400

/-! ## The upload handler (routes.ts lines 432-479) -/

/-- The fixed placeholder summary of the video branch (routes.ts line 469). -/
def videoPlaceholderSummary : String :=
  "Video summary is not available in this demo version."

/-- One observable step of the upload handler, in program order: record
creation, a call into the external summarizer, a record update, or sending
the HTTP response (201 with a record body, or an error status). -/
inductive PipelineEvent
  | createEvt (r : ContentRecord)
  | summarizeCall (path : String)
  | updateEvt (cid : Nat) (u : ContentUpdate)
  | respondEvt (code : Nat) (body : ContentRecord)
  | respondError (code : Nat)
deriving DecidableEq, Repr

/-- The body of the POST /api/content/upload handler (routes.ts lines
433-478), after multer ran. The external Document Summarizer is a parameter:
summarize p = some s models a successful call returning text s, none models
the call throwing. Returns the final store and the ordered event trace; the
trace order is the program order of the handler, which awaits each step. -/
def uploadHandlerBody (userId : Nat) (file : Option UploadFile)
    (summarize : String → Option String) (st : ContentStore) :
    ContentStore × List PipelineEvent :=
  match file with
  | none => (st, [.respondError 400])
  | some f =>
    let ft : FileType := if f.mimetype = "application/pdf" then .pdf else .video
    let created := createContent st
      { userId := userId, filename := f.originalname, fileType := ft,
        filePath := f.path, fileSize := f.size, status := .processing,
        summary := none }
    let content := created.1
    let st1 := created.2
    let step : ContentStore × List PipelineEvent :=
      match ft with
      | .pdf =>
        match summarize f.path with
        | some s =>
          (updateContent st1 content.id { summary := some s, status := some .complete },
           [.summarizeCall f.path,
            .updateEvt content.id { summary := some s, status := some .complete }])
        | none =>
          (updateContent st1 content.id { status := some .failed },
           [.summarizeCall f.path,
            .updateEvt content.id { status := some .failed }])
      | .video =>
        (updateContent st1 content.id
           { summary := some videoPlaceholderSummary, status := some .complete },
         [.updateEvt content.id
            { summary := some videoPlaceholderSummary, status := some .complete }])
    (step.1, .createEvt content :: step.2 ++ [.respondEvt 201 content])

/-- Outcome of a request to POST /api/content/upload: either multer rejected
the file before the handler body ran (store unchanged, client error), or the
handler body ran to completion. -/
inductive UploadResult
  | rejected (st : ContentStore) (code : Nat)
  | completed (st : ContentStore) (events : List PipelineEvent)
deriving DecidableEq, Repr

/-- The whole POST /api/content/upload route: multer validation, then the
handler body. -/
def postContentUpload (userId : Nat) (f : UploadFile)
    (summarize : String → Option String) (st : ContentStore) : UploadResult :=
  if multerAccepts f then
    let run := uploadHandlerBody userId (some f) summarize st
    .completed run.1 run.2
  else
    .rejected st uploadRejectionStatus

/-- The event trace of an accepted upload. -/
def uploadEvents (userId : Nat) (f : UploadFile)
    (summarize : String → Option String) (st : ContentStore) : List PipelineEvent :=
  (uploadHandlerBody userId (some f) summarize st).2

/-- The final store of an accepted upload. -/
def uploadFinalStore (userId : Nat) (f : UploadFile)
    (summarize : String → Option String) (st : ContentStore) : ContentStore :=
  (uploadHandlerBody userId (some f) summarize st).1

/-- The successive status values a given record passes through along an event
trace: its creation status, then every status set by an update addressed to
it (updates not carrying a status leave the status unchanged and add no
entry). -/
def statusHistory (events : List PipelineEvent) (cid : Nat) : List ContentStatus :=
  match events with
  | [] => []
  | e :: rest =>
    (match e with
     | .createEvt r => if r.id = cid then [r.status] else []
     | .updateEvt i u => if i = cid then (match u.status with | some s => [s] | none => []) else []
     | _ => []) ++ statusHistory rest cid

/-- Whether an event is the sending of an HTTP response. -/
def PipelineEvent.isResponse : PipelineEvent → Bool
  | .respondEvt _ _ => true
  | .respondError _ => true
  | _ => false

/-- Whether an event is an update that moves the given record to a terminal
status. -/
def PipelineEvent.isTerminalUpdate (cid : Nat) : PipelineEvent → Bool
  | .updateEvt i u => i = cid && (match u.status with | some s => s.isTerminal | none => false)
  | _ => false

/-! ## Sessions and the authentication middleware chain
    (routes.ts lines 41, 156-178) -/

/-- A session value in the in-memory sessions map (routes.ts line 41). -/
structure Session where
  userId : Nat
  username : String
deriving DecidableEq, Repr

/-- The in-memory sessions map, keyed by the opaque session id string. A new
binding shadows an older one under the same key, matching assignment into a
JS object. -/
def Sessions := List (String × Session)

/-- Look up a session id in the sessions map (most recent binding wins). -/
def lookupSession (ss : Sessions) (t : String) : Option Session :=
  (List.find? (fun p => p.1 = t) ss).map (·.2)

/-- A user row as the auth code reads it from the backing store. -/
structure User where
  id : Nat
  username : String
  password : String
deriving DecidableEq, Repr

/-- Outcome of the middleware chain in front of an authenticated route:
either a 401 response or the request proceeds with req.user set. -/
inductive AuthOutcome
  | unauthorized
  | authenticated (userId : Nat) (username : String)
deriving DecidableEq, Repr

/-- The middleware chain an authenticated operation passes through: first the
auto-login bootstrap (routes.ts lines 168-178: if no authorization header and
the backing store has at least one user, synthesize a session for users[0]
under a fresh token and set the header), then the authenticate middleware
(routes.ts lines 156-165: missing or unknown session id gives 401, otherwise
req.user is the session user). users is the getAllUsers result; freshToken
models the randomly generated session id. Returns the outcome and the
sessions map after the chain. -/
def authChain (ss : Sessions) (users : List User) (authHeader : Option String)
    (freshToken : String) : AuthOutcome × Sessions :=
  let boot : Option String × Sessions :=
    match authHeader with
    | some t => (some t, ss)
    | none =>
      match users with
      | [] => (none, ss)
      | u :: _ => (some freshToken, (freshToken, ⟨u.id, u.username⟩) :: ss)
  match boot.1 with
  | none => (.unauthorized, boot.2)
  | some t =>
    match lookupSession boot.2 t with
    | none => (.unauthorized, boot.2)
    | some s => (.authenticated s.userId s.username, boot.2)

/-! ## The WebSocket message handler (routes.ts lines 54-95) -/

/-- Identifier of a live WebSocket connection in wss.clients. -/
abbrev ConnId := Nat

/-- The sender identity attached to an outbound broadcast: a resolved user id
or the "system" sentinel (routes.ts lines 75-76). -/
inductive SenderTag
  | user (id : Nat)
  | system
deriving DecidableEq, Repr

/-- The outbound broadcast message built by the handler (routes.ts lines
73-79); the timestamp is abstracted away. -/
structure OutboundMessage where
  senderId : SenderTag
  senderName : String
  content : String
deriving DecidableEq, Repr

/-- An inbound WebSocket payload after JSON.parse: either the parse threw
(malformed), or an object with a type, an optional sessionId and a content
field. -/
inductive InboundPayload
  | malformed
  | event (kind : String) (sessionId : Option String) (content : String)
deriving DecidableEq, Repr

/-- Resolve the sender identity of an inbound message: a sessionId present in
the sessions map gives that user, anything else the system sentinel
(routes.ts lines 75-76). -/
def resolveSender (ss : Sessions) (sid : Option String) : SenderTag × String :=
  match sid with
  | none => (.system, "System")
  | some s =>
    match lookupSession ss s with
    | some u => (.user u.userId, u.username)
    | none => (.system, "System")

/-- The broadcast loop (routes.ts lines 71-81): wss.clients.forEach sends to
every client other than the sender. sendFails c = true models client.send
throwing for connection c; the exception propagates out of forEach, so
clients later in iteration order are not attempted. Returns the list of
connections the message was delivered to, in iteration order. -/
def deliverToOthers (clients : List ConnId) (sender : ConnId)
    (sendFails : ConnId → Bool) : List ConnId :=
  match clients with
  | [] => []
  | c :: rest =>
    if c = sender then deliverToOthers rest sender sendFails
    else if sendFails c then []
    else c :: deliverToOthers rest sender sendFails

/-- Observable outcome of handling one inbound WebSocket message. -/
structure WsOutcome where
  delivered : List ConnId
  sent : Option OutboundMessage
  errorSentToSender : Bool
  unregistered : List ConnId
  crashed : Bool
deriving DecidableEq, Repr

/-- The ws.on message handler (routes.ts lines 64-86): parse the payload (a
parse failure is caught and logged); if the event type is "message", build
the outbound message with the resolved sender identity and broadcast it to
all other clients; every exception, including a send failure inside the
forEach loop, is caught by the surrounding try/catch. The handler never
sends anything to the sender itself, never unregisters a connection and
never rethrows. -/
def onMessage (clients : List ConnId) (ss : Sessions) (ws : ConnId)
    (payload : InboundPayload) (sendFails : ConnId → Bool) : WsOutcome :=
  match payload with
  | .malformed =>
    { delivered := [], sent := none, errorSentToSender := false,
      unregistered := [], crashed := false }
  | .event kind sid content =>
    if kind = "message" then
      let ident := resolveSender ss sid
      let msg : OutboundMessage :=
        { senderId := ident.1, senderName := ident.2, content := content }
      { delivered := deliverToOthers clients ws sendFails, sent := some msg,
        errorSentToSender := false, unregistered := [], crashed := false }
    else
      { delivered := [], sent := none, errorSentToSender := false,
        unregistered := [], crashed := false }

/-- An inbound payload is a well-formed message event iff it parsed and its
type field is "message"; everything else is dropped by the handler. -/
def payloadIsMessage : InboundPayload → Bool
  | .malformed => false
  | .event kind _ _ => kind = "message"

/-! ## Concrete sample inputs -/

/-- A 5-byte PDF upload, as in the spec scenario. -/
def samplePdf : UploadFile :=
  { originalname := "a.pdf", mimetype := "application/pdf",
    path := "/up/1-a.pdf", size := 5 }

/-- A small MP4 upload. -/
def sampleMp4 : UploadFile :=
  { originalname := "v.mp4", mimetype := "video/mp4",
    path := "/up/2-v.mp4", size := 10 }

/-- An upload with a MIME type outside the allow-list. -/
def sampleGif : UploadFile :=
  { originalname := "x.gif", mimetype := "image/gif",
    path := "/up/3-x.gif", size := 5 }

/-- A content store with no records. -/
def emptyStore : ContentStore := { records := [], nextId := 1 }

/-! ## Helper lemmas -/

/-- Reading back the just-created record after an update addressed to it
returns the updated record. -/
theorem getContent_update_created (st : ContentStore) (c : NewContent) (u : ContentUpdate) :
    getContent (updateContent (createContent st c).2 (createContent st c).1.id u)
        (createContent st c).1.id =
      some (applyContentUpdate (createContent st c).1 u) := by
  simp [getContent, updateContent, createContent, List.find?_cons_of_pos]

/-- The broadcast loop delivers exactly to the recipients (all clients other
than the sender) up to, and not including, the first one whose send throws. -/
theorem deliverToOthers_eq (clients : List ConnId) (sender : ConnId)
    (sendFails : ConnId → Bool) :
    deliverToOthers clients sender sendFails =
      (clients.filter fun c => c != sender).takeWhile fun c => !sendFails c := by
  induction clients with
  | nil => rfl
  | cons c rest ih =>
    by_cases hc : c = sender
    · simp [deliverToOthers, hc, ih]
    · by_cases hf : sendFails c
      · simp [deliverToOthers, hc, hf, List.takeWhile]
      · simp [deliverToOthers, hc, hf, List.takeWhile, ih]

/-- The sender never appears in the delivered list. -/
theorem sender_not_mem_deliverToOthers (clients : List ConnId) (sender : ConnId)
    (sendFails : ConnId → Bool) :
    sender ∉ deliverToOthers clients sender sendFails := by
  induction clients with
  | nil => simp [deliverToOthers]
  | cons c rest ih =>
    by_cases hc : c = sender
    · simpa [deliverToOthers, hc] using ih
    · by_cases hf : sendFails c
      · simp [deliverToOthers, hc, hf]
      · simp only [deliverToOthers]
        rw [if_neg hc, if_neg hf]
        intro hmem
        rcases List.mem_cons.mp hmem with h | h
        · exact hc h.symm
        · exact ih h

/-- When no send throws, the broadcast loop delivers to every client other
than the sender. -/
theorem deliverToOthers_of_ok (clients : List ConnId) (sender : ConnId)
    (sendFails : ConnId → Bool) (hok : ∀ c, sendFails c = false) :
    deliverToOthers clients sender sendFails = clients.filter fun c => c != sender := by
  rw [deliverToOthers_eq]
  exact List.takeWhile_eq_self_iff.mpr (by intro c _; simp [hok c])

/-! ## Claims about the WebSocket broadcast handler -/

/-- Claim C4: for every pair of distinct registered connections C1 and C2, a
well-formed inbound event of kind "message" received on C1 is delivered to
C2 (when deliveries are not failing) and is never delivered back to C1. -/
theorem claim_C4_broadcast_excludes_sender (clients : List ConnId) (ss : Sessions)
    (c1 c2 : ConnId) (sid : Option String) (content : String)
    (sendFails : ConnId → Bool)
    (hne : c1 ≠ c2) (hmem : c2 ∈ clients) (hok : ∀ c, sendFails c = false) :
    c2 ∈ (onMessage clients ss c1 (.event "message" sid content) sendFails).delivered ∧
    c1 ∉ (onMessage clients ss c1 (.event "message" sid content) sendFails).delivered := by
  have hdeliv : (onMessage clients ss c1 (.event "message" sid content) sendFails).delivered
      = deliverToOthers clients c1 sendFails := by
    simp [onMessage]
  constructor
  · rw [hdeliv, deliverToOthers_of_ok clients c1 sendFails hok]
    exact List.mem_filter.mpr ⟨hmem, by simp [Ne.symm hne]⟩
  · rw [hdeliv]
    exact sender_not_mem_deliverToOthers clients c1 sendFails

/-- Witness for claim C4 at concrete inputs: connections 5 and 9, sender 5. -/
theorem claim_C4_witness :
    9 ∈ (onMessage [5, 9] [] 5 (.event "message" none "hi") (fun _ => false)).delivered ∧
    5 ∉ (onMessage [5, 9] [] 5 (.event "message" none "hi") (fun _ => false)).delivered :=
  claim_C4_broadcast_excludes_sender [5, 9] [] 5 9 none "hi" (fun _ => false)
    (by decide) (by decide) (fun _ => rfl)

/-- Claim C5 counterexample: clients 1, 2, 3 with sender 1; the send to
connection 2 throws. Connection 3 is a remaining recipient whose send would
succeed, yet nothing is delivered to it: the delivered list is empty, so a
delivery failure to one recipient does prevent delivery to the rest,
refuting the claim as stated (the handler itself does not crash). -/
theorem claim_C5_counterexample :
    (onMessage [1, 2, 3] [] 1 (.event "message" none "hi") (fun c => c == 2)).delivered = [] ∧
    3 ∉ (onMessage [1, 2, 3] [] 1 (.event "message" none "hi") (fun c => c == 2)).delivered ∧
    (fun c : ConnId => c == 2) 3 = false ∧
    (onMessage [1, 2, 3] [] 1 (.event "message" none "hi") (fun c => c == 2)).crashed = false := by
  refine ⟨by decide, ?_, by decide, by decide⟩
  decide

/-- Claim C5 amended: a delivery failure is confined by the try/catch around
the broadcast loop — processing of the triggering event never aborts (no
crash, no unregistration, no error to the sender) — but the thrown send
exception stops the forEach loop: exactly the recipients strictly before the
first failing send in iteration order receive the message, and every
recipient from the failing one onwards is skipped. -/
theorem claim_C5_amended_failure_stops_loop (clients : List ConnId) (ss : Sessions)
    (ws : ConnId) (sid : Option String) (content : String) (sendFails : ConnId → Bool) :
    (onMessage clients ss ws (.event "message" sid content) sendFails).crashed = false ∧
    (onMessage clients ss ws (.event "message" sid content) sendFails).unregistered = [] ∧
    (onMessage clients ss ws (.event "message" sid content) sendFails).errorSentToSender = false ∧
    (onMessage clients ss ws (.event "message" sid content) sendFails).delivered =
      ((clients.filter fun c => c != ws).takeWhile fun c => !sendFails c) := by
  refine ⟨by simp [onMessage], by simp [onMessage], by simp [onMessage], ?_⟩
  simp [onMessage, deliverToOthers_eq]

/-- Claim C6: for any malformed inbound payload (unparseable JSON or an event
whose type is not "message"), the handler delivers no broadcast, unregisters
no connection, and surfaces no error to the sending connection. -/
theorem claim_C6_malformed_dropped (clients : List ConnId) (ss : Sessions)
    (ws : ConnId) (payload : InboundPayload) (sendFails : ConnId → Bool)
    (h : payloadIsMessage payload = false) :
    onMessage clients ss ws payload sendFails =
      { delivered := [], sent := none, errorSentToSender := false,
        unregistered := [], crashed := false } := by
  cases payload with
  | malformed => rfl
  | event kind sid content =>
    have hk : ¬ kind = "message" := by simpa [payloadIsMessage] using h
    simp [onMessage, hk]

/-- Witness for claim C6 at concrete inputs: an unparseable payload and a
non-message event. -/
theorem claim_C6_witness :
    onMessage [1, 2] [] 1 .malformed (fun _ => false) =
      { delivered := [], sent := none, errorSentToSender := false,
        unregistered := [], crashed := false } :=
  claim_C6_malformed_dropped [1, 2] [] 1 .malformed (fun _ => false) rfl

/-! ## Claim about the authentication middleware chain -/

/-- Claim C8: a request supplying a session token unknown to the sessions map
is rejected with 401; a request supplying no token at all, when the backing
store has at least one user, has a session synthesized for an existing user
(under the fresh token) and proceeds authenticated as that user. -/
theorem claim_C8_auth_chain (ss : Sessions) (users : List User) (t freshToken : String)
    (h1 : lookupSession ss t = none) (h2 : users ≠ []) :
    (authChain ss users (some t) freshToken).1 = .unauthorized ∧
    ∃ u, u ∈ users ∧
      (authChain ss users none freshToken).1 = .authenticated u.id u.username ∧
      lookupSession (authChain ss users none freshToken).2 freshToken =
        some ⟨u.id, u.username⟩ := by
  constructor
  · simp [authChain, h1]
  · match users, h2 with
    | u :: rest, _ =>
      refine ⟨u, List.mem_cons_self u rest, ?_, ?_⟩
      · simp [authChain, lookupSession]
      · simp [authChain, lookupSession]

/-- Witness for claim C8 at concrete inputs: one user alice, an unknown token
ghost, fresh token tok. -/
theorem claim_C8_witness :
    (authChain [] [⟨1, "alice", "pw"⟩] (some "ghost") "tok").1 = .unauthorized ∧
    ∃ u, u ∈ [(⟨1, "alice", "pw"⟩ : User)] ∧
      (authChain [] [⟨1, "alice", "pw"⟩] none "tok").1 = .authenticated u.id u.username ∧
      lookupSession (authChain [] [⟨1, "alice", "pw"⟩] none "tok").2 "tok" =
        some ⟨u.id, u.username⟩ :=
  claim_C8_auth_chain [] [⟨1, "alice", "pw"⟩] "ghost" "tok" rfl (by simp)

/-! ## Claims about the content-ingestion pipeline -/

/-- Claim C1 is refuted by the code: the handler awaits the summarizer call
and the terminal status update before it sends the HTTP response. At the
failing input — the accepted 5-byte PDF upload with a succeeding summarizer —
the event trace in program order is create, summarize call, terminal update,
and only then the 201 response: mapping each event to the pair (is the
terminal update of record 1, is a response) shows the sole response event
strictly after the sole terminal update, so the response is not sent before
the transition out of processing. -/
theorem claim_C1_code_bug_trace :
    multerAccepts samplePdf = true ∧
    ((uploadEvents 7 samplePdf (fun _ => some "S") emptyStore).map
        fun e => (PipelineEvent.isTerminalUpdate 1 e, e.isResponse)) =
      [(false, false), (false, false), (true, false), (false, true)] := by
  exact ⟨rfl, rfl⟩

/-- Claim C2 counterexample: when the summarizer call succeeds returning the
empty string, the record still transitions to complete but its summary is
the empty string — not a non-empty summary as the claim states. -/
theorem claim_C2_counterexample_empty_summary :
    multerAccepts samplePdf = true ∧
    ((getContent (uploadFinalStore 7 samplePdf (fun _ => some "") emptyStore) 1).map
        fun r => (r.status, r.summary)) =
      some (ContentStatus.complete, some "") := by
  exact ⟨rfl, rfl⟩

/-- Claim C2 amended: for every PDF upload, if the summarizer call succeeds
with text s, the record transitions processing to complete with summary s
(non-empty exactly when the returned text is); if the summarizer call
throws, the record transitions processing to failed with no summary, and the
error is swallowed at the pipeline boundary: the handler still ends by
sending the 201 response carrying the creation-time record, and no error
response is ever produced. -/
theorem claim_C2_amended_pdf_branch (userId : Nat) (f : UploadFile)
    (summarize : String → Option String) (st : ContentStore)
    (hm : f.mimetype = "application/pdf") :
    (∀ s, summarize f.path = some s →
      getContent (uploadFinalStore userId f summarize st) st.nextId =
        some { id := st.nextId, userId := userId, filename := f.originalname,
               fileType := .pdf, filePath := f.path, fileSize := f.size,
               status := .complete, summary := some s } ∧
      statusHistory (uploadEvents userId f summarize st) st.nextId =
        [.processing, .complete]) ∧
    (summarize f.path = none →
      getContent (uploadFinalStore userId f summarize st) st.nextId =
        some { id := st.nextId, userId := userId, filename := f.originalname,
               fileType := .pdf, filePath := f.path, fileSize := f.size,
               status := .failed, summary := none } ∧
      statusHistory (uploadEvents userId f summarize st) st.nextId =
        [.processing, .failed] ∧
      (uploadEvents userId f summarize st).getLast? =
        some (.respondEvt 201
          { id := st.nextId, userId := userId, filename := f.originalname,
            fileType := .pdf, filePath := f.path, fileSize := f.size,
            status := .processing, summary := none }) ∧
      ∀ c, PipelineEvent.respondError c ∉ uploadEvents userId f summarize st) := by
  constructor
  · intro s hs
    constructor
    · simp [uploadFinalStore, uploadHandlerBody, hm, hs, getContent, updateContent,
        createContent, applyContentUpdate, List.find?_cons_of_pos]
    · simp [uploadEvents, uploadHandlerBody, hm, hs, statusHistory, createContent]
  · intro hs
    refine ⟨?_, ?_, ?_, ?_⟩
    · simp [uploadFinalStore, uploadHandlerBody, hm, hs, getContent, updateContent,
        createContent, applyContentUpdate, List.find?_cons_of_pos]
    · simp [uploadEvents, uploadHandlerBody, hm, hs, statusHistory, createContent]
    · simp [uploadEvents, uploadHandlerBody, hm, hs, createContent, List.getLast?]
    · intro c
      simp [uploadEvents, uploadHandlerBody, hm, hs, createContent]

/-- Witness for the amended claim C2 at concrete inputs: the 5-byte PDF with
a summarizer returning S. -/
theorem claim_C2_amended_witness :
    getContent (uploadFinalStore 7 samplePdf (fun _ => some "S") emptyStore) 1 =
      some { id := 1, userId := 7, filename := "a.pdf", fileType := .pdf,
             filePath := "/up/1-a.pdf", fileSize := 5,
             status := .complete, summary := some "S" } ∧
    statusHistory (uploadEvents 7 samplePdf (fun _ => some "S") emptyStore) 1 =
      [.processing, .complete] :=
  (claim_C2_amended_pdf_branch 7 samplePdf (fun _ => some "S") emptyStore rfl).1 "S" rfl

/-- Claim C3: every accepted video upload reaches status complete with the
fixed placeholder summary, never reaches failed, and the summarizer is never
called on this branch. -/
theorem claim_C3_video_branch (userId : Nat) (f : UploadFile)
    (summarize : String → Option String) (st : ContentStore)
    (hm : f.mimetype = "video/mp4") (hacc : multerAccepts f = true) :
    postContentUpload userId f summarize st =
      .completed (uploadFinalStore userId f summarize st)
        (uploadEvents userId f summarize st) ∧
    getContent (uploadFinalStore userId f summarize st) st.nextId =
      some { id := st.nextId, userId := userId, filename := f.originalname,
             fileType := .video, filePath := f.path, fileSize := f.size,
             status := .complete, summary := some videoPlaceholderSummary } ∧
    statusHistory (uploadEvents userId f summarize st) st.nextId =
      [.processing, .complete] ∧
    (∀ p, PipelineEvent.summarizeCall p ∉ uploadEvents userId f summarize st) ∧
    ContentStatus.failed ∉ statusHistory (uploadEvents userId f summarize st) st.nextId := by
  have hne : ¬ f.mimetype = "application/pdf" := by simp [hm]
  refine ⟨?_, ?_, ?_, ?_, ?_⟩
  · simp [postContentUpload, hacc, uploadFinalStore, uploadEvents]
  · simp [uploadFinalStore, uploadHandlerBody, hne, getContent, updateContent,
      createContent, applyContentUpdate, List.find?_cons_of_pos]
  · simp [uploadEvents, uploadHandlerBody, hne, statusHistory, createContent]
  · intro p
    simp [uploadEvents, uploadHandlerBody, hne, createContent]
  · simp [uploadEvents, uploadHandlerBody, hne, statusHistory, createContent]

/-- Witness for claim C3 at concrete inputs: a 10-byte MP4 upload. -/
theorem claim_C3_witness :
    postContentUpload 7 sampleMp4 (fun _ => some "S") emptyStore =
      .completed (uploadFinalStore 7 sampleMp4 (fun _ => some "S") emptyStore)
        (uploadEvents 7 sampleMp4 (fun _ => some "S") emptyStore) ∧
    getContent (uploadFinalStore 7 sampleMp4 (fun _ => some "S") emptyStore) 1 =
      some { id := 1, userId := 7, filename := "v.mp4", fileType := .video,
             filePath := "/up/2-v.mp4", fileSize := 10,
             status := .complete, summary := some videoPlaceholderSummary } ∧
    statusHistory (uploadEvents 7 sampleMp4 (fun _ => some "S") emptyStore) 1 =
      [.processing, .complete] ∧
    (∀ p, PipelineEvent.summarizeCall p ∉ uploadEvents 7 sampleMp4 (fun _ => some "S") emptyStore) ∧
    ContentStatus.failed ∉ statusHistory (uploadEvents 7 sampleMp4 (fun _ => some "S") emptyStore) 1 :=
  claim_C3_video_branch 7 sampleMp4 (fun _ => some "S") emptyStore rfl rfl

/-- Claim C7: an upload whose MIME type is outside the allow-list or whose
size exceeds the 100 MB ceiling is rejected before the handler body runs: the
store is returned unchanged (no ContentRecord is created) and the response
status is a client error. -/
theorem claim_C7_invalid_rejected (userId : Nat) (f : UploadFile)
    (summarize : String → Option String) (st : ContentStore)
    (h : f.mimetype ∉ allowedMimes ∨ uploadSizeLimit < f.size) :
    postContentUpload userId f summarize st = .rejected st uploadRejectionStatus ∧
    400 ≤ uploadRejectionStatus ∧ uploadRejectionStatus < 500 := by
  have hacc : multerAccepts f = false := by
    rcases h with h | h
    · simp [multerAccepts, h]
    · simp [multerAccepts, Nat.not_le.mpr h]
  exact ⟨by simp [postContentUpload, hacc], by decide, by decide⟩

/-- Witness for claim C7 at concrete inputs: a GIF upload. -/
theorem claim_C7_witness :
    postContentUpload 7 sampleGif (fun _ => some "S") emptyStore =
      .rejected emptyStore uploadRejectionStatus ∧
    400 ≤ uploadRejectionStatus ∧ uploadRejectionStatus < 500 :=
  claim_C7_invalid_rejected 7 sampleGif (fun _ => some "S") emptyStore
    (Or.inl (by decide))

/-- Claim C9: for every accepted upload, the created record passes through
exactly the status sequence processing followed by one terminal status: it is
created in processing, processing precedes the terminal state, exactly one
terminal transition occurs, and no event moves the record out of the
terminal state afterwards. -/
theorem claim_C9_status_lifecycle (userId : Nat) (f : UploadFile)
    (summarize : String → Option String) (st st2 : ContentStore)
    (evts : List PipelineEvent)
    (h : postContentUpload userId f summarize st = .completed st2 evts) :
    ∃ t, ContentStatus.isTerminal t = true ∧
      statusHistory evts st.nextId = [ContentStatus.processing, t] := by
  by_cases hacc : multerAccepts f = true
  · rw [postContentUpload, if_pos hacc] at h
    obtain ⟨-, hevts⟩ := UploadResult.completed.inj h
    subst hevts
    by_cases hm : f.mimetype = "application/pdf"
    · cases hs : summarize f.path with
      | some s =>
        exact ⟨.complete, rfl, by
          simp [uploadHandlerBody, hm, hs, statusHistory, createContent]⟩
      | none =>
        exact ⟨.failed, rfl, by
          simp [uploadHandlerBody, hm, hs, statusHistory, createContent]⟩
    · exact ⟨.complete, rfl, by
        simp [uploadHandlerBody, hm, statusHistory, createContent]⟩
  · rw [postContentUpload, if_neg hacc] at h
    exact absurd h (by simp)

/-- Witness for claim C9 at concrete inputs: the 5-byte PDF with a failing
summarizer. -/
theorem claim_C9_witness :
    ∃ t, ContentStatus.isTerminal t = true ∧
      statusHistory (uploadEvents 7 samplePdf (fun _ => none) emptyStore) 1 =
        [ContentStatus.processing, t] :=
  claim_C9_status_lifecycle 7 samplePdf (fun _ => none) emptyStore
    (uploadFinalStore 7 samplePdf (fun _ => none) emptyStore)
    (uploadEvents 7 samplePdf (fun _ => none) emptyStore) rfl

/-- Claim C10: the response body of every accepted upload is the record
snapshot taken at creation time — status processing and no summary — even
though by the time the response is sent the stored record already carries a
terminal status. -/
theorem claim_C10_response_snapshot (userId : Nat) (f : UploadFile)
    (summarize : String → Option String) (st st2 : ContentStore)
    (evts : List PipelineEvent)
    (h : postContentUpload userId f summarize st = .completed st2 evts) :
    ∃ r, evts.getLast? = some (.respondEvt 201 r) ∧
      r.status = .processing ∧ r.summary = none ∧
      ∃ r2, getContent st2 r.id = some r2 ∧ r2.status.isTerminal = true := by
  by_cases hacc : multerAccepts f = true
  · rw [postContentUpload, if_pos hacc] at h
    obtain ⟨hst, hevts⟩ := UploadResult.completed.inj h
    subst hst; subst hevts
    by_cases hm : f.mimetype = "application/pdf"
    · cases hs : summarize f.path with
      | some s =>
        refine ⟨{ id := st.nextId, userId := userId, filename := f.originalname,
                  fileType := .pdf, filePath := f.path, fileSize := f.size,
                  status := .processing, summary := none }, ?_, rfl, rfl, ?_⟩
        · simp [uploadHandlerBody, hm, hs, createContent, List.getLast?]
        · refine ⟨{ id := st.nextId, userId := userId, filename := f.originalname,
                    fileType := .pdf, filePath := f.path, fileSize := f.size,
                    status := .complete, summary := some s }, ?_, rfl⟩
          simp [uploadHandlerBody, hm, hs, getContent, updateContent,
            createContent, applyContentUpdate, List.find?_cons_of_pos]
      | none =>
        refine ⟨{ id := st.nextId, userId := userId, filename := f.originalname,
                  fileType := .pdf, filePath := f.path, fileSize := f.size,
                  status := .processing, summary := none }, ?_, rfl, rfl, ?_⟩
        · simp [uploadHandlerBody, hm, hs, createContent, List.getLast?]
        · refine ⟨{ id := st.nextId, userId := userId, filename := f.originalname,
                    fileType := .pdf, filePath := f.path, fileSize := f.size,
                    status := .failed, summary := none }, ?_, rfl⟩
          simp [uploadHandlerBody, hm, hs, getContent, updateContent,
            createContent, applyContentUpdate, List.find?_cons_of_pos]
    · refine ⟨{ id := st.nextId, userId := userId, filename := f.originalname,
                fileType := .video, filePath := f.path, fileSize := f.size,
                status := .processing, summary := none }, ?_, rfl, rfl, ?_⟩
      · simp [uploadHandlerBody, hm, createContent, List.getLast?]
      · refine ⟨{ id := st.nextId, userId := userId, filename := f.originalname,
                  fileType := .video, filePath := f.path, fileSize := f.size,
                  status := .complete, summary := some videoPlaceholderSummary }, ?_, rfl⟩
        simp [uploadHandlerBody, hm, getContent, updateContent,
          createContent, applyContentUpdate, List.find?_cons_of_pos]
  · rw [postContentUpload, if_neg hacc] at h
    exact absurd h (by simp)

/-- Witness for claim C10 at concrete inputs: the 5-byte PDF with a
succeeding summarizer. -/
theorem claim_C10_witness :
    ∃ r, (uploadEvents 7 samplePdf (fun _ => some "S") emptyStore).getLast? =
        some (.respondEvt 201 r) ∧
      r.status = .processing ∧ r.summary = none ∧
      ∃ r2, getContent (uploadFinalStore 7 samplePdf (fun _ => some "S") emptyStore) r.id =
          some r2 ∧ r2.status.isTerminal = true :=
  claim_C10_response_snapshot 7 samplePdf (fun _ => some "S") emptyStore
    (uploadFinalStore 7 samplePdf (fun _ => some "S") emptyStore)
    (uploadEvents 7 samplePdf (fun _ => some "S") emptyStore) rfl

end SkillSwap
